import Mathlib

/-!
Shallow embedding of the gesture-driven modal-dismissal engine of
`src/app/battle/page.tsx` (mirutan-app), together with its client-side
search filter, and proofs of the specified properties.

JavaScript numbers are modelled as rationals (all arithmetic appearing in
the source is exact on the rationals); JavaScript strings as lists of
UTF-16 code units.
-/

namespace Mirutan

/-- JavaScript strings, modelled as lists of UTF-16 code units. -/
abbrev JSString := List Nat

/-- The `VideoItem` record of the source: an immutable gallery item.
`opponent` and `matchDate` are optional; `contributors` defaults to `[]`. -/
structure VideoItem where
  id : JSString
  title : JSString
  src : JSString
  thumb : JSString
  opponent : Option JSString
  matchDate : Option JSString
  contributors : List JSString
  deriving DecidableEq, Repr

/-- `WHEEL_CLOSE_THRESHOLD = 120` from the source. -/
def WHEEL_CLOSE_THRESHOLD : ℚ := 120

/-- `SWIPE_X_THRESHOLD = 80` from the source. -/
def SWIPE_X_THRESHOLD : ℚ := 80

/-- `SWIPE_Y_THRESHOLD = 100` from the source. -/
def SWIPE_Y_THRESHOLD : ℚ := 100

/-- `SWIPE_X_DISTANCE = 200` from the source. -/
def SWIPE_X_DISTANCE : ℚ := 200

/-- `SWIPE_Y_DISTANCE = 240` from the source. -/
def SWIPE_Y_DISTANCE : ℚ := 240

/-- The fixed fallback delay (milliseconds) that `closeSoft` passes to
`setTimeout` in the source. -/
def CLOSE_FALLBACK_DELAY : ℚ := 260

/-- The regex replacement of `norm`: a code point in the hiragana range
U+3041–U+3096 (`[ぁ-ゖ]`) is shifted by 0x60 to katakana; every other code
point is unchanged. -/
def hiraToKata (c : Nat) : Nat :=
  if 0x3041 ≤ c ∧ c ≤ 0x3096 then c + 0x60 else c

/-- `norm` from the source: lowercase, then NFKC-normalize, then map hiragana
to katakana. `toLowerCase` and `normalize("NFKC")` are host string functions
external to the repository, so they are taken as parameters. -/
def norm (toLower nfkc : JSString → JSString) (s : JSString) : JSString :=
  (nfkc (toLower s)).map hiraToKata

/-- The candidate search fields of an item that are present (not `undefined`):
`[v.title, v.opponent, v.matchDate, ...(v.contributors || [])]` with the
absent optionals removed. -/
def presentFields (v : VideoItem) : List JSString :=
  ([some v.title, v.opponent, v.matchDate] ++ v.contributors.map some).filterMap id

/-- The fields actually consulted by `filtered`: `.filter(Boolean)` also drops
empty strings (falsy in JavaScript), and each survivor is normalized. -/
def searchFields (toLower nfkc : JSString → JSString) (v : VideoItem) : List JSString :=
  ((presentFields v).filter (fun s => !s.isEmpty)).map (norm toLower nfkc)

/-- JavaScript `hay.includes(q)`: `q` occurs as a contiguous substring of `hay`. -/
def jsIncludes (hay q : JSString) : Bool :=
  decide (q <:+: hay)

/-- The filter predicate of `filtered` in the source: an empty normalized query
matches everything; otherwise some search field must contain the query. -/
def matchesQuery (toLower nfkc : JSString → JSString) (qn : JSString) (v : VideoItem) : Bool :=
  qn.isEmpty || (searchFields toLower nfkc v).any (fun f => jsIncludes f qn)

/-- `filtered` from the source: the client-side search filter over the loaded
list, with the query normalized once by `norm`. -/
def filtered (toLower nfkc : JSString → JSString) (list : List VideoItem)
    (qstr : JSString) : List VideoItem :=
  list.filter (matchesQuery toLower nfkc (norm toLower nfkc qstr))

/-- The component state relevant to the gesture/close engine:
`active`, `isPlaying`, `isClosing`, `dragX`, `dragY` are React state;
`wheelAccum` is `wheelAccumRef.current`; `touchStart` is
`touchStartRef.current`. `pendingClose` models the `setTimeout` scheduled by
`closeSoft`: `some d` means a hard close will fire after `d` more
milliseconds. -/
structure ViewerState where
  active : Option VideoItem
  isPlaying : Bool
  isClosing : Bool
  dragX : ℚ
  dragY : ℚ
  wheelAccum : ℚ
  touchStart : Option (ℚ × ℚ)
  pendingClose : Option ℚ
  deriving DecidableEq, Repr

/-- The state before any item is opened. -/
def initState : ViewerState :=
  { active := none, isPlaying := false, isClosing := false,
    dragX := 0, dragY := 0, wheelAccum := 0, touchStart := none,
    pendingClose := none }

/-- Clicking a gallery card: `setActive(v)`. -/
def openItem (v : VideoItem) (s : ViewerState) : ViewerState :=
  { s with active := some v }

/-- The `onPlay` handler of the video element: playback starts and the wheel
accumulator is forced to zero. -/
def onPlay (s : ViewerState) : ViewerState :=
  { s with isPlaying := true, wheelAccum := 0 }

/-- The `onPause` handler of the video element. -/
def onPause (s : ViewerState) : ViewerState :=
  { s with isPlaying := false }

/-- `closeHard` from the source: clears the active item, the playback and
closing flags, the drag vector, the wheel accumulator and the touch anchor.
It does not cancel a pending fallback timer (the source never calls
`clearTimeout`). -/
def closeHard (s : ViewerState) : ViewerState :=
  { s with active := none, isPlaying := false, isClosing := false,
           dragX := 0, dragY := 0, wheelAccum := 0, touchStart := none }

/-- `closeSoft` from the source: sets the closing flag and schedules
`closeHard` after `CLOSE_FALLBACK_DELAY` (260 ms). -/
def closeSoft (s : ViewerState) : ViewerState :=
  { s with isClosing := true, pendingClose := some CLOSE_FALLBACK_DELAY }

/-- The host timer: letting `t` milliseconds elapse with no other event fires
the pending `closeHard` when its delay has run out (the timer is consumed),
and otherwise just counts down. No transition-completion signal is involved. -/
def advance (s : ViewerState) (t : ℚ) : ViewerState :=
  match s.pendingClose with
  | none => s
  | some d => if d ≤ t then closeHard { s with pendingClose := none }
              else { s with pendingClose := some (d - t) }

/-- The gesture events fed to the modal overlay. -/
inductive GEvent where
  | wheel (deltaY : ℚ)
  | touchStart (x y : ℚ)
  | touchMove (x y : ℚ)
  | touchEnd
  deriving DecidableEq, Repr

/-- One synchronous gesture-handler invocation, returning the new state and
whether the handler invoked `closeSoft` (a commit). Direct transcription of
`handleWheel`, `handleTouchStart`, `handleTouchMove`, `handleTouchEnd`. -/
def stepE (s : ViewerState) : GEvent → ViewerState × Bool
  | .wheel d =>
    if s.isPlaying = false then (s, false)
    else if d ≤ 0 then (s, false)
    else
      let acc := s.wheelAccum + d
      let s1 := { s with wheelAccum := acc,
                         dragY := min (s.dragY + d * 0.4) SWIPE_Y_DISTANCE }
      if WHEEL_CLOSE_THRESHOLD ≤ acc then (closeSoft s1, true) else (s1, false)
  | .touchStart x y =>
    if s.isPlaying = false then (s, false)
    else ({ s with touchStart := some (x, y), dragX := 0, dragY := 0 }, false)
  | .touchMove x y =>
    if s.isPlaying = false then (s, false)
    else
      match s.touchStart with
      | none => (s, false)
      | some a =>
        ({ s with dragX := max 0 (x - a.1), dragY := max 0 (y - a.2) }, false)
  | .touchEnd =>
    if s.isPlaying = false then (s, false)
    else
      match s.touchStart with
      | none => (s, false)
      | some _ =>
        if (SWIPE_X_THRESHOLD < s.dragX ∧ abs s.dragY < s.dragX) ∨
           (SWIPE_Y_THRESHOLD < s.dragY ∧ abs s.dragX ≤ s.dragY) then
          ({ closeSoft s with touchStart := none }, true)
        else
          ({ s with dragX := 0, dragY := 0, touchStart := none }, false)

/-- The state after one gesture event. -/
def step (s : ViewerState) (e : GEvent) : ViewerState :=
  (stepE s e).1

/-- Whether the handler for one gesture event invoked `closeSoft`. -/
def emitsClose (s : ViewerState) (e : GEvent) : Bool :=
  (stepE s e).2

/-- `progressX = Math.min(dragX / SWIPE_X_DISTANCE, 1)`. -/
def progressX (dragX : ℚ) : ℚ :=
  min (dragX / SWIPE_X_DISTANCE) 1

/-- `progressY = Math.min(dragY / SWIPE_Y_DISTANCE, 1)`. -/
def progressY (dragY : ℚ) : ℚ :=
  min (dragY / SWIPE_Y_DISTANCE) 1

/-- `progress = Math.max(progressX, progressY)`. -/
def progress (dragX dragY : ℚ) : ℚ :=
  max (progressX dragX) (progressY dragY)

/-- `overlayAlpha = 0.8 * (1 - 0.6 * progress)`. -/
def overlayAlpha (dragX dragY : ℚ) : ℚ :=
  0.8 * (1 - 0.6 * progress dragX dragY)

/-- `translateY = dragY * 0.6`. -/
def translateY (dragY : ℚ) : ℚ :=
  dragY * 0.6

/-- `translateX = dragX * 0.5`. -/
def translateX (dragX : ℚ) : ℚ :=
  dragX * 0.5

/-- `scale = 1 - 0.05 * progress`. -/
def scale (dragX dragY : ℚ) : ℚ :=
  1 - 0.05 * progress dragX dragY

/-- The modal `opacity: 1 - 0.4 * progress` from `modalStyle`. -/
def contentOpacity (dragX dragY : ℚ) : ℚ :=
  1 - 0.4 * progress dragX dragY

/-- A state fully torn down: what the spec calls Closed. -/
def isClosed (s : ViewerState) : Prop :=
  s.active = none ∧ s.isPlaying = false ∧ s.isClosing = false ∧
  s.dragX = 0 ∧ s.dragY = 0 ∧ s.wheelAccum = 0 ∧ s.touchStart = none

instance (s : ViewerState) : Decidable (isClosed s) := by
  unfold isClosed
  infer_instance

/-- A concrete item for concrete test states. -/
def demoItem : VideoItem :=
  { id := [], title := [], src := [], thumb := [],
    opponent := none, matchDate := none, contributors := [] }

/-- A playing state with a recorded touch anchor and drag vector `(x, y)`,
for the concrete dominant-axis cases. -/
def testState (x y : ℚ) : ViewerState :=
  { active := some demoItem, isPlaying := true, isClosing := false,
    dragX := x, dragY := y, wheelAccum := 0, touchStart := some (0, 0),
    pendingClose := none }

/-- A playing state reached by opening an item and receiving the play signal:
the start state of the concrete scenarios below. -/
def playingState : ViewerState :=
  onPlay (openItem demoItem initState)

/-- C1: on touch release with a recorded anchor while playing, the gesture
commits (invokes `closeSoft`) iff
`(dragX > 80 ∧ dragX > |dragY|) ∨ (dragY > 100 ∧ dragY ≥ |dragX|)`; a
non-commit resets the drag vector to `(0, 0)` and leaves `wheelEnergy`
unchanged; `(90, 50)` and `(50, 110)` commit while `(90, 95)` does not. -/
theorem touchEnd_commit_iff (s : ViewerState)
    (hp : s.isPlaying = true) (ha : s.touchStart ≠ none) :
    (emitsClose s .touchEnd = true ↔
      (SWIPE_X_THRESHOLD < s.dragX ∧ abs s.dragY < s.dragX) ∨
      (SWIPE_Y_THRESHOLD < s.dragY ∧ abs s.dragX ≤ s.dragY)) ∧
    (emitsClose s .touchEnd = false →
      (step s .touchEnd).dragX = 0 ∧ (step s .touchEnd).dragY = 0 ∧
      (step s .touchEnd).wheelAccum = s.wheelAccum) ∧
    emitsClose (testState 90 50) .touchEnd = true ∧
    emitsClose (testState 50 110) .touchEnd = true ∧
    emitsClose (testState 90 95) .touchEnd = false := by
  obtain ⟨a, ha2⟩ := Option.ne_none_iff_exists'.mp ha
  refine ⟨?_, ?_, by decide, by decide, by decide⟩
  · simp only [emitsClose, stepE, hp]
    simp only [Bool.true_eq_false, if_false, ha2]
    split_ifs with h <;> simp [h]
  · simp only [emitsClose, step, stepE, hp]
    simp only [Bool.true_eq_false, if_false, ha2]
    split_ifs with h <;> simp [h]

/-- Witness for C1 at the drag vector `(90, 95)`: the gesture does not
commit, so the drag vector resets and the wheel accumulator is kept. -/
theorem touchEnd_commit_iff_witness :
    (step (testState 90 95) GEvent.touchEnd).dragX = 0 ∧
    (step (testState 90 95) GEvent.touchEnd).dragY = 0 ∧
    (step (testState 90 95) GEvent.touchEnd).wheelAccum =
      (testState 90 95).wheelAccum :=
  (touchEnd_commit_iff (testState 90 95) rfl (by decide)).2.1 (by decide)

/-- C2 counterexample: from a fresh playing state, a wheel tick of
`deltaY = 120` brings the accumulator to the threshold and invokes
`closeSoft`; the next positive wheel tick, with the accumulator still at or
above 120 and playback still on, invokes `closeSoft` AGAIN — the source has
no once-only guard, refuting "never invoke closeSoft again". -/
theorem wheel_close_fires_again_cex :
    emitsClose playingState (GEvent.wheel 120) = true ∧
    WHEEL_CLOSE_THRESHOLD ≤ (step playingState (GEvent.wheel 120)).wheelAccum ∧
    (step playingState (GEvent.wheel 120)).isPlaying = true ∧
    emitsClose (step playingState (GEvent.wheel 120)) (GEvent.wheel 5) = true := by
  norm_num [emitsClose, step, stepE, playingState, onPlay, openItem, initState,
    WHEEL_CLOSE_THRESHOLD, closeSoft]

/-- C2 amended: on every wheel tick with positive `deltaY` while playing,
`closeSoft` is invoked exactly when the updated accumulator is at or above
the threshold 120 — so each subsequent qualifying tick invokes it again. -/
theorem wheel_close_every_tick (s : ViewerState) (d : ℚ)
    (hp : s.isPlaying = true) (hd : 0 < d) :
    emitsClose s (.wheel d) = true ↔
      WHEEL_CLOSE_THRESHOLD ≤ s.wheelAccum + d := by
  have h1 : ¬ (s.isPlaying = false) := by simp [hp]
  have h2 : ¬ (d ≤ 0) := not_le.mpr hd
  simp only [emitsClose, stepE, if_neg h1, if_neg h2]
  split_ifs with h <;> simp [h]

/-- Witness for the amended C2 at the first tick of the counterexample run. -/
theorem wheel_close_every_tick_witness :
    emitsClose playingState (GEvent.wheel 120) = true ↔
      WHEEL_CLOSE_THRESHOLD ≤ playingState.wheelAccum + 120 :=
  wheel_close_every_tick playingState 120 rfl (by norm_num)

/-- C3: `closeHard` clears the active item, the playback and closing flags,
the drag vector, the wheel accumulator and the touch anchor, and it is
idempotent: a second invocation changes nothing. -/
theorem closeHard_clears_and_idempotent (s : ViewerState) :
    (closeHard s).active = none ∧ (closeHard s).isPlaying = false ∧
    (closeHard s).isClosing = false ∧ (closeHard s).dragX = 0 ∧
    (closeHard s).dragY = 0 ∧ (closeHard s).wheelAccum = 0 ∧
    (closeHard s).touchStart = none ∧
    closeHard (closeHard s) = closeHard s := by
  simp [closeHard]

/-- C4: the visual mapping computes the stated formulas, and for every
nonnegative drag vector its outputs lie in the stated ranges; at the origin
the progress is zero. -/
theorem visual_mapping_bounds (x y : ℚ) (hx : 0 ≤ x) (hy : 0 ≤ y) :
    progressX x = min (x / 200) 1 ∧ progressY y = min (y / 240) 1 ∧
    progress x y = max (progressX x) (progressY y) ∧
    translateX x = 0.5 * x ∧ translateY y = 0.6 * y ∧
    0 ≤ progress x y ∧ progress x y ≤ 1 ∧
    overlayAlpha x y = 0.8 * (1 - 0.6 * progress x y) ∧
    0.32 ≤ overlayAlpha x y ∧ overlayAlpha x y ≤ 0.8 ∧
    scale x y = 1 - 0.05 * progress x y ∧
    0.95 ≤ scale x y ∧ scale x y ≤ 1 ∧
    contentOpacity x y = 1 - 0.4 * progress x y ∧
    0.6 ≤ contentOpacity x y ∧ contentOpacity x y ≤ 1 ∧
    progress 0 0 = 0 := by
  have hp0 : 0 ≤ progress x y := by
    unfold progress progressX SWIPE_X_DISTANCE
    have h : (0 : ℚ) ≤ min (x / 200) 1 := le_min (by positivity) (by norm_num)
    exact le_trans h (le_max_left _ _)
  have hp1 : progress x y ≤ 1 := by
    unfold progress progressX progressY
    exact max_le (min_le_right _ _) (min_le_right _ _)
  refine ⟨rfl, rfl, rfl, by unfold translateX; ring, by unfold translateY; ring,
    hp0, hp1, rfl, ?_, ?_, rfl, ?_, ?_, rfl, ?_, ?_, ?_⟩
  · unfold overlayAlpha; nlinarith
  · unfold overlayAlpha; nlinarith
  · unfold scale; nlinarith
  · unfold scale; nlinarith
  · unfold contentOpacity; nlinarith
  · unfold contentOpacity; nlinarith
  · norm_num [progress, progressX, progressY, SWIPE_X_DISTANCE, SWIPE_Y_DISTANCE]

/-- Witness for C4 at the drag vector `(100, 120)`. -/
theorem visual_mapping_bounds_witness :
    0 ≤ progress 100 120 ∧ progress 100 120 ≤ 1 :=
  ⟨(visual_mapping_bounds 100 120 (by norm_num) (by norm_num)).2.2.2.2.2.1,
   (visual_mapping_bounds 100 120 (by norm_num) (by norm_num)).2.2.2.2.2.2.1⟩

/-- C5 counterexample: from the reachable playing state, a touch anchored at
the origin followed by a move to `x = 500` leaves `dragX = 500`, exceeding
`SWIPE_X_DISTANCE = 200` — `handleTouchMove` clamps only below, never above. -/
theorem drag_exceeds_axis_max_cex :
    (step (step playingState (GEvent.touchStart 0 0))
        (GEvent.touchMove 500 0)).dragX = 500 ∧
    ¬ ((step (step playingState (GEvent.touchStart 0 0))
        (GEvent.touchMove 500 0)).dragX ≤ SWIPE_X_DISTANCE) := by
  norm_num [step, stepE, playingState, onPlay, openItem, initState,
    SWIPE_X_DISTANCE]

/-- C5 amended: every event preserves nonnegativity of the drag vector, and a
wheel event never pushes `dragY` beyond `max dragY 240`; but touch moves
impose no upper clamp, so `dragX`/`dragY` can exceed 200/240. -/
theorem drag_nonneg_and_wheel_bound (s : ViewerState) (e : GEvent)
    (hx : 0 ≤ s.dragX) (hy : 0 ≤ s.dragY) :
    0 ≤ (step s e).dragX ∧ 0 ≤ (step s e).dragY ∧
    ∀ d : ℚ, (step s (.wheel d)).dragY ≤ max s.dragY SWIPE_Y_DISTANCE := by
  have hwheel : ∀ d : ℚ, (step s (.wheel d)).dragY ≤ max s.dragY SWIPE_Y_DISTANCE := by
    intro d
    simp only [step, stepE]
    split_ifs with h1 h2 h3
    · exact le_max_left _ _
    · exact le_max_left _ _
    · exact le_trans (min_le_right _ _) (le_max_right _ _)
    · exact le_trans (min_le_right _ _) (le_max_right _ _)
  refine ⟨?_, ?_, hwheel⟩ <;>
  · cases e with
    | wheel d =>
      simp only [step, stepE]
      split_ifs with h1 h2 h3 <;>
        simp [closeSoft, le_min_iff, SWIPE_Y_DISTANCE, hx, hy] <;>
        nlinarith [hy, not_le.mp h2]
    | touchStart x y =>
      simp only [step, stepE]
      split_ifs <;> simp [hx, hy]
    | touchMove x y =>
      rcases ht : s.touchStart with _ | a <;>
        simp only [step, stepE, ht] <;> split_ifs <;>
        simp [hx, hy, le_max_left]
    | touchEnd =>
      rcases ht : s.touchStart with _ | a <;>
        simp only [step, stepE, ht] <;> split_ifs <;>
        simp [closeSoft, hx, hy]

/-- Witness for the amended C5 from the playing state under a wheel tick. -/
theorem drag_nonneg_and_wheel_bound_witness :
    0 ≤ (step playingState (GEvent.wheel 10)).dragX ∧
    0 ≤ (step playingState (GEvent.wheel 10)).dragY :=
  ⟨(drag_nonneg_and_wheel_bound playingState (GEvent.wheel 10) (by norm_num [playingState, onPlay, openItem, initState]) (by norm_num [playingState, onPlay, openItem, initState])).1,
   (drag_nonneg_and_wheel_bound playingState (GEvent.wheel 10) (by norm_num [playingState, onPlay, openItem, initState]) (by norm_num [playingState, onPlay, openItem, initState])).2.1⟩

/-- C6: while `isPlaying` is false every gesture handler leaves the state
unchanged and invokes no close, and a touch release with no recorded anchor
is a no-op even while playing. -/
theorem handlers_noop (s : ViewerState) (e : GEvent) :
    (s.isPlaying = false → stepE s e = (s, false)) ∧
    (s.touchStart = none → stepE s GEvent.touchEnd = (s, false)) := by
  constructor
  · intro hp
    cases e <;> simp [stepE, hp]
  · intro ht
    by_cases hp : s.isPlaying = false
    · simp [stepE, hp]
    · simp [stepE, if_neg hp, ht]

/-- Witness for C6: a wheel tick in the initial (non-playing) state. -/
theorem handlers_noop_witness :
    stepE initState (GEvent.wheel 50) = (initState, false) :=
  (handlers_noop initState (GEvent.wheel 50)).1 rfl

/-- C7: a wheel event with `deltaY ≤ 0` changes neither the wheel accumulator
nor `dragY`; with `deltaY > 0` while playing, the accumulator grows by
exactly `deltaY` and `dragY` becomes `min (dragY + 0.4·deltaY) 240`. -/
theorem wheel_semantics (s : ViewerState) (d : ℚ) :
    (d ≤ 0 → (step s (.wheel d)).wheelAccum = s.wheelAccum ∧
      (step s (.wheel d)).dragY = s.dragY) ∧
    (s.isPlaying = true → 0 < d →
      (step s (.wheel d)).wheelAccum = s.wheelAccum + d ∧
      (step s (.wheel d)).dragY = min (s.dragY + d * 0.4) SWIPE_Y_DISTANCE) := by
  constructor
  · intro hd
    by_cases hp : s.isPlaying = false
    · simp [step, stepE, hp]
    · simp [step, stepE, if_neg hp, hd]
  · intro hp hd
    have h1 : ¬ (s.isPlaying = false) := by simp [hp]
    have h2 : ¬ (d ≤ 0) := not_le.mpr hd
    simp only [step, stepE, if_neg h1, if_neg h2]
    split_ifs with h <;> simp [closeSoft]

/-- Witness for C7: an upward tick (`deltaY = -30`) in the playing state. -/
theorem wheel_semantics_witness :
    (step playingState (GEvent.wheel (-30))).wheelAccum =
      playingState.wheelAccum ∧
    (step playingState (GEvent.wheel (-30))).dragY = playingState.dragY :=
  (wheel_semantics playingState (-30)).1 (by norm_num)

/-- C8: the wheel accumulator never decreases under any gesture event; it is
set to 0 by the play handler and by `closeHard`, and is untouched by the
pause handler and by `closeSoft`. -/
theorem wheelAccum_monotone (s : ViewerState) (e : GEvent) :
    s.wheelAccum ≤ (step s e).wheelAccum ∧
    (onPlay s).wheelAccum = 0 ∧ (closeHard s).wheelAccum = 0 ∧
    (onPause s).wheelAccum = s.wheelAccum ∧
    (closeSoft s).wheelAccum = s.wheelAccum := by
  refine ⟨?_, rfl, rfl, rfl, rfl⟩
  cases e with
  | wheel d =>
    simp only [step, stepE]
    split_ifs with h1 h2 h3 <;> simp [closeSoft] <;> linarith [not_le.mp h2]
  | touchStart x y =>
    simp only [step, stepE]
    split_ifs <;> simp
  | touchMove x y =>
    rcases ht : s.touchStart with _ | a <;>
      simp only [step, stepE, ht] <;> split_ifs <;> simp
  | touchEnd =>
    rcases ht : s.touchStart with _ | a <;>
      simp only [step, stepE, ht] <;> split_ifs <;> simp [closeSoft]

/-- C9: `closeSoft` only sets the closing flag and schedules the fallback
`closeHard` at the fixed delay 260 ms; once at least that much time elapses
with no transition-completion signal, the state is fully torn down. -/
theorem closeSoft_fallback_reaches_closed (s : ViewerState) (t : ℚ)
    (ht : CLOSE_FALLBACK_DELAY ≤ t) :
    closeSoft s =
      { s with isClosing := true, pendingClose := some CLOSE_FALLBACK_DELAY } ∧
    CLOSE_FALLBACK_DELAY = 260 ∧
    isClosed (advance (closeSoft s) t) := by
  refine ⟨rfl, rfl, ?_⟩
  simp [advance, closeSoft, closeHard, isClosed, ht]

/-- Witness for C9: the fallback fires exactly at 260 ms from any state. -/
theorem closeSoft_fallback_witness :
    isClosed (advance (closeSoft initState) 260) :=
  (closeSoft_fallback_reaches_closed initState 260
    (by norm_num [CLOSE_FALLBACK_DELAY])).2.2

/-- The search predicate of `filtered`, characterized over the present
fields: dropping empty strings before normalization (the `.filter(Boolean)`)
does not change which items match, provided the host normalizers send the
empty string to the empty string. -/
theorem matchesQuery_iff (toLower nfkc : JSString → JSString)
    (hempty : nfkc (toLower []) = []) (qn : JSString) (v : VideoItem) :
    matchesQuery toLower nfkc qn v = true ↔
      (qn = [] ∨ ∃ f ∈ presentFields v, qn <:+: norm toLower nfkc f) := by
  unfold matchesQuery searchFields jsIncludes
  rw [Bool.or_eq_true, List.isEmpty_iff, List.any_eq_true]
  constructor
  · rintro (h | ⟨f, hf, hinc⟩)
    · exact Or.inl h
    · obtain ⟨g, hg, rfl⟩ := List.mem_map.mp hf
      exact Or.inr ⟨g, (List.mem_filter.mp hg).1, of_decide_eq_true hinc⟩
  · rintro (h | ⟨g, hg, hinf⟩)
    · exact Or.inl h
    · by_cases hq : qn = []
      · exact Or.inl hq
      · refine Or.inr ⟨norm toLower nfkc g,
          List.mem_map_of_mem _ (List.mem_filter.mpr ⟨hg, ?_⟩),
          decide_eq_true hinf⟩
        have hgne : g ≠ [] := by
          rintro rfl
          apply hq
          have hnorm : norm toLower nfkc [] = [] := by
            simp [norm, hempty]
          rw [hnorm] at hinf
          exact List.eq_nil_of_sublist_nil hinf.sublist
        simp [List.isEmpty_iff, hgne]

/-- C10: the client-side search is an order-preserving sublist of the loaded
list; the empty normalized query keeps the whole list; and an item survives
iff it is in the list and some present field (title, opponent, match date, or
a contributor), once normalized by `norm`, contains the normalized query as a
substring. The host normalizers are assumed to send the empty string to the
empty string (true of `toLowerCase` and NFKC). -/
theorem filtered_characterization (toLower nfkc : JSString → JSString)
    (hempty : nfkc (toLower []) = [])
    (list : List VideoItem) (qstr : JSString) :
    List.Sublist (filtered toLower nfkc list qstr) list ∧
    (norm toLower nfkc qstr = [] → filtered toLower nfkc list qstr = list) ∧
    ∀ v : VideoItem, v ∈ filtered toLower nfkc list qstr ↔
      v ∈ list ∧ (norm toLower nfkc qstr = [] ∨
        ∃ f ∈ presentFields v, norm toLower nfkc qstr <:+: norm toLower nfkc f) := by
  refine ⟨List.filter_sublist list, ?_, ?_⟩
  · intro hq
    apply List.filter_eq_self.mpr
    intro v hv
    rw [matchesQuery_iff toLower nfkc hempty]
    exact Or.inl hq
  · intro v
    rw [filtered, List.mem_filter, matchesQuery_iff toLower nfkc hempty]

/-- Witness for C10 with identity normalizers: the empty query keeps the
whole (one-item) list. -/
theorem filtered_characterization_witness :
    filtered id id [demoItem] [] = [demoItem] :=
  (filtered_characterization id id rfl [demoItem] []).2.1 rfl

end Mirutan
